import Mathlib

/-!
Verification of the parental-account authentication usecase layer
(`authUsecase` in the Go source): phone certification via SMS codes,
sign-up, and login.  The four operations are embedded as pure functions
over an `Env` describing the outcome of every collaborator call
(transaction handler, repositories, SMS agency, hash handler, JWT
handler).  Each operation returns its error result together with a trace
of the collaborator calls it made (`Ev`), including the final
`commit` / `rollback` resolution of the transaction.
-/

/-- Mirror of Go `sql.NullBool`: a boolean that may be unset (`valid = false`,
the Go zero value). -/
structure NullBool where
  bool : Bool
  valid : Bool
deriving DecidableEq, Repr

/-- Mirror of Go `sql.NullString`. -/
structure NullString where
  string : String
  valid : Bool
deriving DecidableEq, Repr

/-- Mirror of `domain.ParentPhoneCertify`: the phone-certification record.
Field names follow the Go struct (`PhoneNumber`, `CertifyCode`, `Certified`,
`ParentUUID`). -/
structure ParentPhoneCertify where
  phoneNumber : String
  certifyCode : Int
  certified : NullBool
  parentUUID : NullString
deriving DecidableEq, Repr

/-- Mirror of `domain.ParentAuth`: the parent account (`UUID`, `ID`, `PW`,
`Name`). -/
structure ParentAuth where
  uuid : String
  id : String
  pw : String
  name : String
deriving DecidableEq, Repr

/-- Modelled from the spec: `domain.ParentPhoneCertify.GenerateCertifyCode`
is not part of the provided source; the spec describes it as a random
6-digit numeric code generator.  The randomness is supplied as a seed, and
the result always lies in the 6-digit range 100000..999999. -/
def GenerateCertifyCode (seed : Nat) : Int :=
  Int.ofNat (100000 + seed % 900000)

/-- The conflict sub-reason codes of the usecase layer's `conflictErr`. -/
inductive ConflictReason
  | phoneAlreadyInUse
  | phoneAlreadyCertified
  | incorrectCertifyCode
  | parentIDAlreadyInUse
  | uncertifiedPhone
  | incorrectParentPW
  | notExistParentID
deriving DecidableEq, Repr

/-- Classified usecase errors: `conflictErr` (with its sub-reason),
`notFoundErr`, `internalServerErr`, and the unclassified wrapped error
returned when `BeginTx` itself fails. -/
inductive UsecaseErr
  | conflict (reason : ConflictReason)
  | notFound
  | internal
  | unclassified
deriving DecidableEq, Repr

/-- Outcome of a repository `Get` call: a row, `rowNotExistErr`, or any
other error. -/
inductive GetRes (α : Type)
  | found (row : α)
  | rowNotExist
  | otherErr
deriving DecidableEq, Repr

/-- Outcome of a phone-certification repository write (`Store` / `Update`):
the usecase only distinguishes `nil` from everything else. -/
inductive WriteRes
  | ok
  | errOther
deriving DecidableEq, Repr

/-- Outcome of `parentAuthRepository.Store`: `nil`, `invalidModelErr`,
`entryDuplicateErr` (carrying the duplicate key name), or any other
error. -/
inductive StoreRes
  | ok
  | invalidModel
  | dup (key : String)
  | otherErr
deriving DecidableEq, Repr

/-- Outcome of `hashHandler.CompareHashAndPW`: `nil`, an error exposing a
`Mismatch()` method, or any other error. -/
inductive CompareRes
  | ok
  | mismatch
  | otherErr
deriving DecidableEq, Repr

/-- Events recording the collaborator calls an operation performs.
`commit` / `rollback` are the calls on the transaction handler; a write
event records the record passed to the repository call (which is made
whether or not it succeeds); `smsEv` records one `SendSMSToOne` call. -/
inductive Ev
  | commit
  | rollback
  | phoneStoreEv (row : ParentPhoneCertify)
  | phoneUpdateEv (row : ParentPhoneCertify)
  | authStoreEv (acct : ParentAuth)
  | smsEv (receiver content : String)
deriving DecidableEq, Repr

/-- The environment: the outcome of every collaborator call an operation
may make.  `randomUUID` models `ParentAuth.GenerateRandomUUID` (not in the
provided source; the spec describes it as a freshly generated random
identifier) and `codeSeed` the randomness of `GenerateCertifyCode`.
`jwt` models `GenerateUUIDJWT`, returning the token string together with
a flag telling whether the call also returned an error. -/
structure Env where
  beginOk : Bool
  phoneGet : GetRes ParentPhoneCertify
  phoneUpdate : WriteRes
  phoneStore : WriteRes
  smsOk : Bool
  commitOk : Bool
  rollbackOk : Bool
  codeSeed : Nat
  authGet : GetRes ParentAuth
  authStore : StoreRes
  availableUUID : Option String
  randomUUID : String
  genHash : String → Option String
  compare : String → String → CompareRes
  jwt : String → String × Bool

/-- Result of an operation that only returns an error: the usecase error
(`none` = Go `nil`) and the trace of collaborator calls. -/
structure OpOut where
  err : Option UsecaseErr
  events : List Ev
deriving DecidableEq, Repr

/-- Result of `LoginParentAuth`: `(uuid, token, err)` plus the trace. -/
structure LoginOut where
  uuid : String
  token : String
  err : Option UsecaseErr
  events : List Ev
deriving DecidableEq, Repr

/-- The SMS body built by `SendCertifyCodeToPhone`
(`fmt.Sprintf` of the Korean template with the certify code). -/
def smsContent (code : Int) : String :=
  "[육아는 처음이지 인증 번호]\n회원가입 인증 번호: " ++ toString code

/-- Embedding of `authUsecase.SendCertifyCodeToPhone`.  Mirrors the Go
control flow: begin transaction; `GetByPhoneNumber`; on an existing row,
conflict if `ParentUUID.Valid`, else regenerate the code, set
`Certified = {false, true}` and `Update`; on `rowNotExistErr`, build a
fresh record (zero-valued `Certified` and `ParentUUID`) with a generated
code and `Store`; then send the SMS; commit on success, rollback on every
failure path (commit / rollback errors are discarded). -/
def SendCertifyCodeToPhone (env : Env) (pn : String) : OpOut :=
  if !env.beginOk then ⟨some .unclassified, []⟩
  else
    match env.phoneGet with
    | .found row0 =>
      if row0.parentUUID.valid then
        ⟨some (.conflict .phoneAlreadyInUse), [.rollback]⟩
      else
        let row := { row0 with
          certifyCode := GenerateCertifyCode env.codeSeed,
          certified := ⟨false, true⟩ }
        match env.phoneUpdate with
        | .ok =>
          let evs := [Ev.phoneUpdateEv row,
            Ev.smsEv row.phoneNumber (smsContent row.certifyCode)]
          if env.smsOk then ⟨none, evs ++ [Ev.commit]⟩
          else ⟨some .internal, evs ++ [Ev.rollback]⟩
        | .errOther =>
          ⟨some .internal, [.phoneUpdateEv row, .rollback]⟩
    | .rowNotExist =>
      let row : ParentPhoneCertify :=
        { phoneNumber := pn,
          certifyCode := GenerateCertifyCode env.codeSeed,
          certified := ⟨false, false⟩,
          parentUUID := ⟨"", false⟩ }
      match env.phoneStore with
      | .ok =>
        let evs := [Ev.phoneStoreEv row,
          Ev.smsEv row.phoneNumber (smsContent row.certifyCode)]
        if env.smsOk then ⟨none, evs ++ [Ev.commit]⟩
        else ⟨some .internal, evs ++ [Ev.rollback]⟩
      | .errOther =>
        ⟨some .internal, [.phoneStoreEv row, .rollback]⟩
    | .otherErr => ⟨some .internal, [.rollback]⟩

/-- Embedding of `authUsecase.CertifyPhoneWithCode`: begin transaction;
`GetByPhoneNumber`; conflict if already certified
(`Certified.Valid && Certified.Bool`); conflict if the supplied code
differs from the stored one; otherwise set `Certified = {true, true}` and
`Update`; `notFoundErr` when no row exists. -/
def CertifyPhoneWithCode (env : Env) (pn : String) (code : Int) : OpOut :=
  if !env.beginOk then ⟨some .unclassified, []⟩
  else
    match env.phoneGet with
    | .found row0 =>
      if row0.certified.valid && row0.certified.bool then
        ⟨some (.conflict .phoneAlreadyCertified), [.rollback]⟩
      else if code ≠ row0.certifyCode then
        ⟨some (.conflict .incorrectCertifyCode), [.rollback]⟩
      else
        let row := { row0 with certified := (⟨true, true⟩ : NullBool) }
        match env.phoneUpdate with
        | .ok => ⟨none, [.phoneUpdateEv row, .commit]⟩
        | .errOther => ⟨some .internal, [.phoneUpdateEv row, .rollback]⟩
    | .rowNotExist => ⟨some .notFound, [.rollback]⟩
    | .otherErr => ⟨some .internal, [.rollback]⟩

/-- Embedding of `authUsecase.SignUpParent`: begin transaction;
`GetByPhoneNumber`; the success branch requires `err == nil` and
`Certified.Valid && Certified.Bool`; it hashes the password
(`InternalError` on hash failure), takes `GetAvailableUUID` or falls back
to a random UUID, and calls `Store`, mapping `entryDuplicateErr` on key
`"id"` to a conflict; the `else` branch maps both `nil` (row present but
not certified) and `rowNotExistErr` to the `uncertifiedPhone` conflict. -/
def SignUpParent (env : Env) (pa : ParentAuth) (pn : String) : OpOut :=
  if !env.beginOk then ⟨some .unclassified, []⟩
  else
    match env.phoneGet with
    | .found row =>
      if row.certified.valid && row.certified.bool then
        match env.genHash pa.pw with
        | none => ⟨some .internal, [.rollback]⟩
        | some h =>
          let uuid := match env.availableUUID with
            | some u => u
            | none => env.randomUUID
          let pa2 := { pa with pw := h, uuid := uuid }
          match env.authStore with
          | .ok => ⟨none, [.authStoreEv pa2, .commit]⟩
          | .invalidModel => ⟨some .internal, [.authStoreEv pa2, .rollback]⟩
          | .dup k =>
            if k = "id" then
              ⟨some (.conflict .parentIDAlreadyInUse),
                [.authStoreEv pa2, .rollback]⟩
            else ⟨some .internal, [.authStoreEv pa2, .rollback]⟩
          | .otherErr => ⟨some .internal, [.authStoreEv pa2, .rollback]⟩
      else ⟨some (.conflict .uncertifiedPhone), [.rollback]⟩
    | .rowNotExist => ⟨some (.conflict .uncertifiedPhone), [.rollback]⟩
    | .otherErr => ⟨some .internal, [.rollback]⟩

/-- Embedding of `authUsecase.LoginParentAuth`: begin transaction;
`GetByID`; on a row, `CompareHashAndPW` (a `Mismatch()` error maps to the
`incorrectParentPW` conflict); on success `uuid = pa.UUID`, the token is
whatever `GenerateUUIDJWT` returned, and the JWT error is overwritten
with `nil` (`err = nil` in the source) before committing;
`rowNotExistErr` maps to the `notExistParentID` conflict. -/
def LoginParentAuth (env : Env) (id pw : String) : LoginOut :=
  if !env.beginOk then ⟨"", "", some .unclassified, []⟩
  else
    match env.authGet with
    | .found pa =>
      match env.compare pa.pw pw with
      | .ok =>
        let tok := (env.jwt pa.uuid).1
        ⟨pa.uuid, tok, none, [.commit]⟩
      | .mismatch =>
        ⟨"", "", some (.conflict .incorrectParentPW), [.rollback]⟩
      | .otherErr => ⟨"", "", some .internal, [.rollback]⟩
    | .rowNotExist =>
      ⟨"", "", some (.conflict .notExistParentID), [.rollback]⟩
    | .otherErr => ⟨"", "", some .internal, [.rollback]⟩

/-- `true` on the two transaction-resolution events. -/
def Ev.isResolution : Ev → Bool
  | .commit => true
  | .rollback => true
  | _ => false

/-- Number of commit / rollback calls in a trace. -/
def resolutionCount (evs : List Ev) : Nat :=
  (evs.filter Ev.isResolution).length

/-- `true` on phone-certification repository write calls. -/
def Ev.isPhoneWrite : Ev → Bool
  | .phoneStoreEv _ => true
  | .phoneUpdateEv _ => true
  | _ => false

/-- `true` on `SendSMSToOne` calls. -/
def Ev.isSms : Ev → Bool
  | .smsEv _ _ => true
  | _ => false

/-- `true` on parent-account `Store` calls. -/
def Ev.isAuthStore : Ev → Bool
  | .authStoreEv _ => true
  | _ => false

/-- A sample stored parent account used by the concrete environments. -/
def paEx : ParentAuth := ⟨"uuid-1", "pid1", "HASH", "name1"⟩

/-- A baseline environment in which every collaborator call succeeds. -/
def envBase : Env :=
  { beginOk := true
    phoneGet := .rowNotExist
    phoneUpdate := .ok
    phoneStore := .ok
    smsOk := true
    commitOk := true
    rollbackOk := true
    codeSeed := 0
    authGet := .found paEx
    authStore := .ok
    availableUUID := some "uuid-2"
    randomUUID := "uuid-3"
    genHash := fun _ => some "HASH2"
    compare := fun _ _ => .ok
    jwt := fun _ => ("tok", false) }

/-- Environment for the C1 witness: everything succeeds except the JWT
call, which fails (returning an empty token together with an error). -/
def envJwtFail : Env := { envBase with jwt := fun _ => ("", true) }

/-- A certified record bound to no account, as stored after a successful
code verification. -/
def rowCertified : ParentPhoneCertify :=
  ⟨"01012345678", 100000, ⟨true, true⟩, ⟨"", false⟩⟩

/-- Environment whose phone lookup returns an already-certified record. -/
def envCertified : Env := { envBase with phoneGet := .found rowCertified }

/-- A record claimed by an account (`ParentUUID` set). -/
def rowOwned : ParentPhoneCertify :=
  ⟨"01012345678", 100000, ⟨true, true⟩, ⟨"uuid-1", true⟩⟩

/-- Environment whose phone lookup returns an account-bound record. -/
def envOwned : Env := { envBase with phoneGet := .found rowOwned }

/-- An existing record that is not yet certified (explicit false flag). -/
def rowUncert : ParentPhoneCertify :=
  ⟨"01012345678", 123456, ⟨false, true⟩, ⟨"", false⟩⟩

/-- Environment whose phone lookup returns the uncertified record. -/
def envUncert : Env := { envBase with phoneGet := .found rowUncert }

/-- Environment with a certified record, ready for sign-up. -/
def envSignup : Env := { envBase with phoneGet := .found rowCertified }

/-- Baseline environment in which the `Commit` call itself fails. -/
def envCommitFail : Env := { envBase with commitOk := false }

/-- Environment whose hash comparison reports a mismatch. -/
def envPwMismatch : Env := { envBase with compare := fun _ _ => .mismatch }

/-- The record `SendCertifyCodeToPhone` builds and stores for an unseen
phone number in the baseline environment (seed 0): code 100000 and both
`Certified` and `ParentUUID` left at their Go zero values (unset). -/
def rowCreated : ParentPhoneCertify :=
  ⟨"01012345678", 100000, ⟨false, false⟩, ⟨"", false⟩⟩

/-- The generated certify code always lies in the 6-digit range. -/
theorem generateCertifyCode_range (seed : Nat) :
    100000 ≤ GenerateCertifyCode seed ∧ GenerateCertifyCode seed ≤ 999999 := by
  have hlt : seed % 900000 < 900000 := Nat.mod_lt _ (by norm_num)
  simp only [GenerateCertifyCode, Int.ofNat_eq_coe]
  omega

/-- C1: when the account lookup succeeds and the password comparison
succeeds, any error returned by `GenerateUUIDJWT` is discarded:
`LoginParentAuth` returns a nil error and the account's UUID regardless
of the JWT outcome (the source overwrites `err` with `nil`). -/
theorem login_jwt_error_discarded (env : Env) (id pw : String)
    (pa : ParentAuth)
    (hBegin : env.beginOk = true)
    (hGet : env.authGet = .found pa)
    (hCmp : env.compare pa.pw pw = .ok) :
    (LoginParentAuth env id pw).err = none ∧
    (LoginParentAuth env id pw).uuid = pa.uuid := by
  simp [LoginParentAuth, hBegin, hGet, hCmp]

/-- C1 witness: in `envJwtFail` the JWT call fails, yet login returns a
nil error and the stored account's UUID. -/
theorem login_jwt_error_discarded_witness :
    envJwtFail.beginOk = true ∧
    envJwtFail.authGet = .found paEx ∧
    envJwtFail.compare paEx.pw "pw" = .ok ∧
    (envJwtFail.jwt paEx.uuid).2 = true ∧
    (LoginParentAuth envJwtFail "pid1" "pw").err = none ∧
    (LoginParentAuth envJwtFail "pid1" "pw").uuid = paEx.uuid := by
  have h := login_jwt_error_discarded envJwtFail "pid1" "pw" paEx rfl rfl rfl
  exact ⟨rfl, rfl, rfl, rfl, h.1, h.2⟩

/-- C4: whenever `BeginTx` succeeds, each of the four operations calls
exactly one of `Commit` / `Rollback`, exactly once, on every exit path. -/
theorem tx_resolved_exactly_once (env : Env) (pn id pw : String)
    (pa : ParentAuth) (code : Int)
    (hBegin : env.beginOk = true) :
    resolutionCount (SendCertifyCodeToPhone env pn).events = 1 ∧
    resolutionCount (CertifyPhoneWithCode env pn code).events = 1 ∧
    resolutionCount (SignUpParent env pa pn).events = 1 ∧
    resolutionCount (LoginParentAuth env id pw).events = 1 := by
  refine ⟨?_, ?_, ?_, ?_⟩ <;>
    simp only [SendCertifyCodeToPhone, CertifyPhoneWithCode, SignUpParent,
      LoginParentAuth, hBegin, Bool.not_true, Bool.false_eq_true, if_false] <;>
    (repeat' split) <;>
    simp [resolutionCount, Ev.isResolution]

/-- C4 witness: the resolution count is 1 for each operation in the
baseline environment. -/
theorem tx_resolved_exactly_once_witness :
    envBase.beginOk = true ∧
    resolutionCount (SendCertifyCodeToPhone envBase "01012345678").events = 1 ∧
    resolutionCount (CertifyPhoneWithCode envBase "01012345678" 100000).events = 1 ∧
    resolutionCount (SignUpParent envBase paEx "01012345678").events = 1 ∧
    resolutionCount (LoginParentAuth envBase "pid1" "pw").events = 1 := by
  have h := tx_resolved_exactly_once envBase "01012345678" "pid1" "pw" paEx
    100000 rfl
  exact ⟨rfl, h.1, h.2.1, h.2.2.1, h.2.2.2⟩

/-- C7: on a record already certified, `CertifyPhoneWithCode` fails with
the `phoneAlreadyCertified` conflict whatever the supplied code; on a
phone number with no record, it fails with `notFound`. -/
theorem certify_already_certified_or_missing (env : Env) (pn : String)
    (code : Int) (row : ParentPhoneCertify)
    (hBegin : env.beginOk = true) :
    (env.phoneGet = .found row → row.certified.valid = true →
      row.certified.bool = true →
      (CertifyPhoneWithCode env pn code).err =
        some (.conflict .phoneAlreadyCertified)) ∧
    (env.phoneGet = .rowNotExist →
      (CertifyPhoneWithCode env pn code).err = some .notFound) := by
  constructor
  · intro hGet hv hb
    simp [CertifyPhoneWithCode, hBegin, hGet, hv, hb]
  · intro hGet
    simp [CertifyPhoneWithCode, hBegin, hGet]

/-- C7 witness: with an already-certified record, certify fails with the
conflict even for the stored (correct) code; with a missing record, it
fails with `notFound`. -/
theorem certify_already_certified_or_missing_witness :
    envCertified.beginOk = true ∧
    envCertified.phoneGet = .found rowCertified ∧
    rowCertified.certified.valid = true ∧
    rowCertified.certified.bool = true ∧
    (CertifyPhoneWithCode envCertified "01012345678" 100000).err =
      some (.conflict .phoneAlreadyCertified) ∧
    envBase.phoneGet = GetRes.rowNotExist ∧
    (CertifyPhoneWithCode envBase "01012345678" 100000).err =
      some UsecaseErr.notFound := by
  have h1 := certify_already_certified_or_missing envCertified "01012345678"
    100000 rowCertified rfl
  have h2 := certify_already_certified_or_missing envBase "01012345678"
    100000 rowCertified rfl
  exact ⟨rfl, rfl, rfl, rfl, h1.1 rfl rfl rfl, rfl, h2.2 rfl⟩

/-- C8: on a record whose `ParentUUID` is set, `SendCertifyCodeToPhone`
fails with the `phoneAlreadyInUse` conflict, performs no store or update
write, and rolls back the transaction. -/
theorem send_code_phone_in_use (env : Env) (pn : String)
    (row : ParentPhoneCertify)
    (hBegin : env.beginOk = true)
    (hGet : env.phoneGet = .found row)
    (hOwner : row.parentUUID.valid = true) :
    (SendCertifyCodeToPhone env pn).err =
      some (.conflict .phoneAlreadyInUse) ∧
    ((SendCertifyCodeToPhone env pn).events.filter Ev.isPhoneWrite) = [] ∧
    ((SendCertifyCodeToPhone env pn).events.filter Ev.isSms) = [] ∧
    Ev.rollback ∈ (SendCertifyCodeToPhone env pn).events := by
  simp [SendCertifyCodeToPhone, hBegin, hGet, hOwner, Ev.isPhoneWrite, Ev.isSms]

/-- C8 witness: concrete account-bound record, conflict returned, no
writes, rollback present. -/
theorem send_code_phone_in_use_witness :
    envOwned.beginOk = true ∧
    envOwned.phoneGet = .found rowOwned ∧
    rowOwned.parentUUID.valid = true ∧
    (SendCertifyCodeToPhone envOwned "01012345678").err =
      some (.conflict .phoneAlreadyInUse) ∧
    ((SendCertifyCodeToPhone envOwned "01012345678").events.filter
      Ev.isPhoneWrite) = [] ∧
    Ev.rollback ∈ (SendCertifyCodeToPhone envOwned "01012345678").events := by
  have h := send_code_phone_in_use envOwned "01012345678" rowOwned rfl rfl rfl
  exact ⟨rfl, rfl, rfl, h.1, h.2.1, h.2.2.2⟩

/-- C5: `SignUpParent` maps both a missing certification record and a
record not certified to the same `uncertifiedPhone` conflict, storing no
account in either case; and it returns a nil error only when the lookup
found a record with `Certified` valid and true. -/
theorem signup_requires_certified (env : Env) (pa : ParentAuth)
    (pn : String) (row : ParentPhoneCertify)
    (hBegin : env.beginOk = true) :
    (env.phoneGet = .rowNotExist →
      (SignUpParent env pa pn).err = some (.conflict .uncertifiedPhone) ∧
      ((SignUpParent env pa pn).events.filter Ev.isAuthStore) = []) ∧
    (env.phoneGet = .found row →
      (row.certified.valid && row.certified.bool) = false →
      (SignUpParent env pa pn).err = some (.conflict .uncertifiedPhone) ∧
      ((SignUpParent env pa pn).events.filter Ev.isAuthStore) = []) ∧
    ((SignUpParent env pa pn).err = none →
      ∃ r : ParentPhoneCertify, env.phoneGet = .found r ∧
        r.certified.valid = true ∧ r.certified.bool = true) := by
  refine ⟨?_, ?_, ?_⟩
  · intro hGet
    simp [SignUpParent, hBegin, hGet, Ev.isAuthStore]
  · intro hGet hcert
    simp [SignUpParent, hBegin, hGet, hcert, Ev.isAuthStore]
  · intro hOk
    rcases hGet : env.phoneGet with r | _ | _ <;>
      simp only [SignUpParent, hBegin, Bool.not_true, Bool.false_eq_true,
        if_false, hGet] at hOk
    · refine ⟨r, rfl, ?_⟩
      by_cases hc : (r.certified.valid && r.certified.bool) = true
      · exact ⟨(Bool.and_eq_true _ _).mp hc |>.1,
          (Bool.and_eq_true _ _).mp hc |>.2⟩
      · simp [hc] at hOk
    · simp at hOk
    · simp at hOk

/-- C5 witness: with an uncertified record present, sign-up fails with the
`uncertifiedPhone` conflict and stores nothing; with no record (the
baseline environment), the same conflict results. -/
theorem signup_requires_certified_witness :
    envUncert.beginOk = true ∧
    envUncert.phoneGet = .found rowUncert ∧
    (rowUncert.certified.valid && rowUncert.certified.bool) = false ∧
    (SignUpParent envUncert paEx "01012345678").err =
      some (.conflict .uncertifiedPhone) ∧
    ((SignUpParent envUncert paEx "01012345678").events.filter
      Ev.isAuthStore) = [] ∧
    envBase.phoneGet = GetRes.rowNotExist ∧
    (SignUpParent envBase paEx "01012345678").err =
      some (.conflict .uncertifiedPhone) := by
  have h1 := signup_requires_certified envUncert paEx "01012345678"
    rowUncert rfl
  have h2 := signup_requires_certified envBase paEx "01012345678"
    rowUncert rfl
  exact ⟨rfl, rfl, rfl, (h1.2.1 rfl rfl).1, (h1.2.1 rfl rfl).2, rfl,
    (h2.1 rfl).1⟩

/-- C6: on an existing record not yet certified: with the matching code
and a successful repository update, the operation returns nil, the
updated record written has `Certified = {true, true}`, and the
transaction commits; with a non-matching code, no update call is made,
the transaction rolls back, and the `incorrectCertifyCode` conflict is
returned (so the stored flag is unchanged). -/
theorem certify_code_transition (env : Env) (pn : String) (code : Int)
    (row : ParentPhoneCertify)
    (hBegin : env.beginOk = true)
    (hGet : env.phoneGet = .found row)
    (hNotCert : (row.certified.valid && row.certified.bool) = false) :
    (code = row.certifyCode → env.phoneUpdate = .ok →
      (CertifyPhoneWithCode env pn code).err = none ∧
      (CertifyPhoneWithCode env pn code).events =
        [Ev.phoneUpdateEv { row with certified := ⟨true, true⟩ },
         Ev.commit] ∧
      ({ row with certified := (⟨true, true⟩ : NullBool) }).certified.bool
        = true) ∧
    (code ≠ row.certifyCode →
      (CertifyPhoneWithCode env pn code).err =
        some (.conflict .incorrectCertifyCode) ∧
      ((CertifyPhoneWithCode env pn code).events.filter Ev.isPhoneWrite)
        = [] ∧
      Ev.rollback ∈ (CertifyPhoneWithCode env pn code).events) := by
  constructor
  · intro hCode hUpd
    simp [CertifyPhoneWithCode, hBegin, hGet, hNotCert, hCode, hUpd]
  · intro hCode
    simp [CertifyPhoneWithCode, hBegin, hGet, hNotCert, hCode,
      Ev.isPhoneWrite]

/-- C6 witness: the uncertified record with stored code 123456; the
matching code certifies and commits, the wrong code 999999 conflicts and
rolls back. -/
theorem certify_code_transition_witness :
    envUncert.beginOk = true ∧
    envUncert.phoneGet = .found rowUncert ∧
    (rowUncert.certified.valid && rowUncert.certified.bool) = false ∧
    (CertifyPhoneWithCode envUncert "01012345678" 123456).err = none ∧
    (CertifyPhoneWithCode envUncert "01012345678" 123456).events =
      [Ev.phoneUpdateEv { rowUncert with certified := ⟨true, true⟩ },
       Ev.commit] ∧
    (CertifyPhoneWithCode envUncert "01012345678" 999999).err =
      some (.conflict .incorrectCertifyCode) ∧
    Ev.rollback ∈ (CertifyPhoneWithCode envUncert "01012345678" 999999).events := by
  have h := certify_code_transition envUncert "01012345678" 123456
    rowUncert rfl rfl rfl
  have h2 := certify_code_transition envUncert "01012345678" 999999
    rowUncert rfl rfl rfl
  have ha := h.1 rfl rfl
  have hb := h2.2 (by decide)
  exact ⟨rfl, rfl, rfl, ha.1, ha.2.1, hb.1, hb.2.2⟩

/-- C9: on a successful sign-up the stored account's password field is
exactly the hash `GenerateHashWithMinSalt` produced from the plaintext
(hence differs from the plaintext whenever the hash does); and when
hashing fails, the operation returns `internal` and makes no store
call. -/
theorem signup_password_hashed (env : Env) (pa : ParentAuth)
    (pn : String) (row : ParentPhoneCertify) (h : String)
    (hBegin : env.beginOk = true)
    (hGet : env.phoneGet = .found row)
    (hCert : (row.certified.valid && row.certified.bool) = true) :
    (env.genHash pa.pw = some h → env.authStore = .ok →
      (SignUpParent env pa pn).err = none ∧
      ∃ acct : ParentAuth,
        (SignUpParent env pa pn).events.filter Ev.isAuthStore =
          [Ev.authStoreEv acct] ∧
        acct.pw = h ∧ (h ≠ pa.pw → acct.pw ≠ pa.pw)) ∧
    (env.genHash pa.pw = none →
      (SignUpParent env pa pn).err = some .internal ∧
      ((SignUpParent env pa pn).events.filter Ev.isAuthStore) = []) := by
  constructor
  · intro hHash hStore
    refine ⟨?_, ?_⟩
    · simp [SignUpParent, hBegin, hGet, hCert, hHash, hStore]
    · refine ⟨{ pa with pw := h, uuid := (match env.availableUUID with | some u => u | none => env.randomUUID) }, ?_, rfl, fun hne => hne⟩
      simp [SignUpParent, hBegin, hGet, hCert, hHash, hStore, Ev.isAuthStore]
  · intro hHash
    simp [SignUpParent, hBegin, hGet, hCert, hHash, Ev.isAuthStore]

/-- C9 witness: in `envSignup` the hash handler maps every plaintext to
"HASH2"; sign-up succeeds and the stored account's password is "HASH2",
not the plaintext "plain-pw"; with a failing hash handler the operation
returns `internal` and stores nothing. -/
theorem signup_password_hashed_witness :
    envSignup.beginOk = true ∧
    envSignup.phoneGet = .found rowCertified ∧
    (rowCertified.certified.valid && rowCertified.certified.bool) = true ∧
    envSignup.genHash "plain-pw" = some "HASH2" ∧
    (SignUpParent envSignup { paEx with pw := "plain-pw" } "01012345678").err
      = none ∧
    (SignUpParent { envSignup with genHash := fun _ => none }
      { paEx with pw := "plain-pw" } "01012345678").err = some .internal := by
  have h1 := signup_password_hashed envSignup { paEx with pw := "plain-pw" }
    "01012345678" rowCertified "HASH2" rfl rfl rfl
  have h2 := signup_password_hashed { envSignup with genHash := fun _ => none }
    { paEx with pw := "plain-pw" } "01012345678" rowCertified "HASH2"
    rfl rfl rfl
  exact ⟨rfl, rfl, rfl, rfl, (h1.1 rfl rfl).1, (h2.2 rfl).1⟩

/-- C10: on the success path of each of the four operations the error
returned by `Commit` is discarded (`_ = au.txHandler.Commit(_tx)`): the
operation returns a nil usecase error even when the commit fails. -/
theorem commit_error_ignored (env : Env) (pn id pw : String)
    (pa : ParentAuth) (row : ParentPhoneCertify) (code : Int)
    (hBegin : env.beginOk = true)
    (hCommit : env.commitOk = false) :
    (env.phoneGet = .rowNotExist → env.phoneStore = .ok →
      env.smsOk = true → (SendCertifyCodeToPhone env pn).err = none) ∧
    (env.phoneGet = .found row →
      (row.certified.valid && row.certified.bool) = false →
      code = row.certifyCode → env.phoneUpdate = .ok →
      (CertifyPhoneWithCode env pn code).err = none) ∧
    (env.phoneGet = .found row →
      (row.certified.valid && row.certified.bool) = true →
      env.genHash pa.pw = some "HASH2" → env.authStore = .ok →
      (SignUpParent env pa pn).err = none) ∧
    (env.authGet = .found pa → env.compare pa.pw pw = .ok →
      (LoginParentAuth env id pw).err = none) := by
  refine ⟨?_, ?_, ?_, ?_⟩
  · intro hGet hStore hSms
    simp [SendCertifyCodeToPhone, hBegin, hGet, hStore, hSms]
  · intro hGet hCert hCode hUpd
    simp [CertifyPhoneWithCode, hBegin, hGet, hCert, hCode, hUpd]
  · intro hGet hCert hHash hStore
    simp [SignUpParent, hBegin, hGet, hCert, hHash, hStore]
  · intro hGet hCmp
    simp [LoginParentAuth, hBegin, hGet, hCmp]

/-- C10 witness: in `envCommitFail` the commit call fails, yet the
send-certify-code and login success paths both return a nil error. -/
theorem commit_error_ignored_witness :
    envCommitFail.beginOk = true ∧
    envCommitFail.commitOk = false ∧
    envCommitFail.phoneGet = GetRes.rowNotExist ∧
    (SendCertifyCodeToPhone envCommitFail "01012345678").err = none ∧
    envCommitFail.authGet = .found paEx ∧
    (LoginParentAuth envCommitFail "pid1" "pw").err = none := by
  have h := commit_error_ignored envCommitFail "01012345678" "pid1" "pw"
    paEx rowUncert 123456 rfl rfl
  exact ⟨rfl, rfl, rfl, h.1 rfl rfl rfl, rfl, h.2.2.2 rfl rfl⟩

/-- C2 counterexample: in `envJwtFail` the account exists and the stored
hash matches the password (`CompareHashAndPW` returns nil), yet the token
returned is empty, because the failing JWT call's token is kept and its
error discarded; this refutes the claim that every such call returns a
non-empty token. -/
theorem login_nonempty_token_counterexample :
    envJwtFail.beginOk = true ∧
    envJwtFail.authGet = .found paEx ∧
    envJwtFail.compare paEx.pw "pw" = .ok ∧
    (LoginParentAuth envJwtFail "pid1" "pw").err = none ∧
    (LoginParentAuth envJwtFail "pid1" "pw").token = "" := by
  exact ⟨rfl, rfl, rfl, rfl, rfl⟩

/-- C2 amended: when the account exists, the password matches, the JWT
call succeeds with a non-empty token, and the stored UUID is non-empty,
login returns that non-empty UUID and non-empty token; when the account
exists but the password mismatches, it returns the `incorrectParentPW`
conflict and an empty token. -/
theorem login_success_returns_uuid_and_token (env : Env) (id pw : String)
    (pa : ParentAuth) (t : String)
    (hBegin : env.beginOk = true)
    (hGet : env.authGet = .found pa) :
    (env.compare pa.pw pw = .ok → env.jwt pa.uuid = (t, false) →
      t ≠ "" → pa.uuid ≠ "" →
      (LoginParentAuth env id pw).err = none ∧
      (LoginParentAuth env id pw).uuid = pa.uuid ∧
      (LoginParentAuth env id pw).uuid ≠ "" ∧
      (LoginParentAuth env id pw).token = t ∧
      (LoginParentAuth env id pw).token ≠ "") ∧
    (env.compare pa.pw pw = .mismatch →
      (LoginParentAuth env id pw).err =
        some (.conflict .incorrectParentPW) ∧
      (LoginParentAuth env id pw).token = "") := by
  constructor
  · intro hCmp hJwt ht hu
    refine ⟨?_, ?_, ?_, ?_, ?_⟩ <;>
      simp [LoginParentAuth, hBegin, hGet, hCmp, hJwt, ht, hu]
  · intro hCmp
    simp [LoginParentAuth, hBegin, hGet, hCmp]

/-- C2 witness: in the baseline environment (JWT succeeds with "tok",
stored UUID "uuid-1") login returns the non-empty UUID and token; in
`envPwMismatch` it returns the `incorrectParentPW` conflict and no
token. -/
theorem login_success_returns_uuid_and_token_witness :
    envBase.beginOk = true ∧
    envBase.authGet = .found paEx ∧
    envBase.compare paEx.pw "pw" = .ok ∧
    envBase.jwt paEx.uuid = ("tok", false) ∧
    (LoginParentAuth envBase "pid1" "pw").uuid = paEx.uuid ∧
    (LoginParentAuth envBase "pid1" "pw").token = "tok" ∧
    (LoginParentAuth envBase "pid1" "pw").token ≠ "" ∧
    envPwMismatch.compare paEx.pw "wrong" = CompareRes.mismatch ∧
    (LoginParentAuth envPwMismatch "pid1" "wrong").err =
      some (.conflict .incorrectParentPW) ∧
    (LoginParentAuth envPwMismatch "pid1" "wrong").token = "" := by
  have h1 := login_success_returns_uuid_and_token envBase "pid1" "pw"
    paEx "tok" rfl rfl
  have h2 := login_success_returns_uuid_and_token envPwMismatch "pid1"
    "wrong" paEx "tok" rfl rfl
  have ha := h1.1 rfl rfl (by decide) (by decide)
  have hb := h2.2 rfl
  exact ⟨rfl, rfl, rfl, rfl, ha.2.1, ha.2.2.2.1, ha.2.2.2.2, rfl,
    hb.1, hb.2⟩

/-- C3 counterexample: for an unseen phone number the record passed to
`Store` has `Certified` unset (`{Bool: false, Valid: false}`, the Go zero
value), not the explicit false state `{Bool: false, Valid: true}` that
the resend path writes; so the new record's certified flag is not
`false`, it is unset. -/
theorem send_code_new_record_counterexample :
    envBase.beginOk = true ∧
    envBase.phoneGet = GetRes.rowNotExist ∧
    (SendCertifyCodeToPhone envBase "01012345678").events =
      [Ev.phoneStoreEv rowCreated,
       Ev.smsEv "01012345678" (smsContent 100000),
       Ev.commit] ∧
    rowCreated.certified ≠ (⟨false, true⟩ : NullBool) := by
  refine ⟨rfl, rfl, ?_, by decide⟩
  simp [SendCertifyCodeToPhone, envBase, rowCreated, GenerateCertifyCode]

/-- C3 amended: for an unseen phone number (with the store write and the
SMS call succeeding) `SendCertifyCodeToPhone` returns nil, commits,
performs exactly one SMS send, and stores a fresh record for that number
whose certified flag is left unset (in particular not true) and whose
code lies in the 6-digit range. -/
theorem send_code_creates_record (env : Env) (pn : String)
    (hBegin : env.beginOk = true)
    (hGet : env.phoneGet = .rowNotExist)
    (hStore : env.phoneStore = .ok)
    (hSms : env.smsOk = true) :
    (SendCertifyCodeToPhone env pn).err = none ∧
    ((SendCertifyCodeToPhone env pn).events.filter Ev.isSms).length = 1 ∧
    Ev.commit ∈ (SendCertifyCodeToPhone env pn).events ∧
    ∃ row : ParentPhoneCertify,
      Ev.phoneStoreEv row ∈ (SendCertifyCodeToPhone env pn).events ∧
      row.phoneNumber = pn ∧
      row.certified = (⟨false, false⟩ : NullBool) ∧
      (row.certified.valid && row.certified.bool) = false ∧
      100000 ≤ row.certifyCode ∧ row.certifyCode ≤ 999999 := by
  have hrange := generateCertifyCode_range env.codeSeed
  refine ⟨?_, ?_, ?_,
    ⟨⟨pn, GenerateCertifyCode env.codeSeed, ⟨false, false⟩, ⟨"", false⟩⟩,
      ?_, rfl, rfl, rfl, hrange.1, hrange.2⟩⟩ <;>
    simp [SendCertifyCodeToPhone, hBegin, hGet, hStore, hSms, Ev.isSms]

/-- C3 witness: the baseline environment has no record for the number and
all calls succeed; send-certify-code returns nil and sends exactly one
SMS. -/
theorem send_code_creates_record_witness :
    envBase.beginOk = true ∧
    envBase.phoneGet = GetRes.rowNotExist ∧
    envBase.phoneStore = WriteRes.ok ∧
    envBase.smsOk = true ∧
    (SendCertifyCodeToPhone envBase "01012345678").err = none ∧
    ((SendCertifyCodeToPhone envBase "01012345678").events.filter
      Ev.isSms).length = 1 := by
  have h := send_code_creates_record envBase "01012345678" rfl rfl rfl rfl
  exact ⟨rfl, rfl, rfl, rfl, h.1, h.2.1⟩
